import Mathlib

set_option autoImplicit false

/-!
Shallow embedding of `src/main.py`, an asynchronous front-page crawler
(poll loop + dedup + thread-link extraction + concurrent fan-out download).

Modelling conventions:

* Network and filesystem are oracles packaged in a `World`:
  `fetchResult url` is the decoded body a GET of `url` returns (`none` for
  any transport error / non-success status / decode error, matching `fetch`
  in the source, which catches every exception and returns `None`), and
  `saveOk folder filename` says whether the write of that file succeeds.
  The `headers` argument of the source's `fetch` does not influence the
  modelled outcome, so it is omitted.
* `BeautifulSoup` parsing of raw markup text is abstract: `parseFront` /
  `parseThread` turn a fetched body into the structured document the
  selection logic then walks.  The selection logic itself
  (`tr.athing` rows, `span.titleline a`, `find_all('a', href=True)`,
  the `[:TOP_N]` slice, the `startswith` filter) is embedded concretely.
* A front-page row (`tr.athing`) is modelled with its `id` attribute
  (`row.get('id')`, modelled as a string that may be empty) and a
  three-state title cell: the `titleline` span or its anchor may be
  missing (the source's `if title_span and title_span.find('a')` guard
  fails and the row is skipped), the anchor may be present but carry no
  `href` attribute (the guard passes but `title_span.find('a')['href']`
  — bs4 `Tag.__getitem__` — raises `KeyError`), or the anchor carries an
  `href` value (possibly empty).  `parse_top_news` therefore returns an
  `Except`, because the source can raise out of it.
* A thread document is its list of anchor `href` values, in document order.
* Python `set` values (the collected comment links) are modelled as
  duplicate-free lists in first-insertion order; this is one admissible
  iteration order of a Python set.
* A successful file write is the event `(folder, filename, content)`;
  effectful functions return their list of write events plus an optional
  uncaught Python exception (`PyErr`).  `asyncio.gather` without
  `return_exceptions` is modelled as: all write events of all tasks are
  collected, and the first task error (in task order) propagates.
* Python truthiness on fetched bodies (`if not page:` etc.) is the test
  "`None` or the empty string", embedded explicitly at each use site.
-/

/-- Front-page URL constant `BASE_URL` from the source. -/
def BASE_URL : String := "https://news.ycombinator.com/"

/-- Number of front-page rows considered per cycle, `TOP_N = 5`. -/
def TOP_N : Nat := 5

/-- Storage root `NEWS_DIR = 'data'`. -/
def NEWS_DIR : String := "data"

/-- Sleep interval between cycles, `CRAWL_INTERVAL = 300` (timing is not
needed by any claim; the constant is kept for completeness). -/
def CRAWL_INTERVAL : Nat := 300

/-- State of the title cell of a `tr.athing` row, as seen by
`parse_top_news`: `missing` — no `titleline` span, or a span without any
anchor (the source's guard fails, the row is skipped); `noHref` — the
first anchor of the span exists but carries no `href` attribute (the
guard passes and `title_span.find('a')['href']` raises `KeyError`);
`href url` — the first anchor carries the attribute `href = url`
(`url` may be the empty string). -/
inductive TitleAnchor where
  | missing
  | noHref
  | href (url : String)
  deriving DecidableEq

/-- One `tr.athing` row of the parsed front page: its `id` attribute and
the state of its title cell. -/
structure Row where
  id : String
  title : TitleAnchor
  deriving DecidableEq

/-- A parsed front-page document: its `tr.athing` rows in document order. -/
structure FrontDoc where
  rows : List Row
  deriving DecidableEq

/-- A parsed thread-page document: the `href` targets of all its anchor
elements, in document order. -/
structure ThreadDoc where
  hrefs : List String
  deriving DecidableEq

/-- Uncaught Python exceptions the embedded code can raise:
`typeError` is the `TypeError` raised by `BeautifulSoup(None, ...)`,
`ioError` is an `OSError` escaping a filesystem write, and `keyError` is
the `KeyError` raised by `title_span.find('a')['href']` when the title
anchor carries no `href` attribute. -/
inductive PyErr where
  | typeError
  | ioError
  | keyError
  deriving DecidableEq

deriving instance DecidableEq for Except

/-- A successful write event: `(folder, filename, content)`. -/
abbrev Write := String × String × String

/-- The external world: fetch outcomes, write outcomes, and the abstract
`BeautifulSoup` parse of raw markup. -/
structure World where
  fetchResult : String → Option String
  saveOk : String → String → Bool
  parseFront : String → FrontDoc
  parseThread : String → ThreadDoc

/-- Embedding of `fetch(session, url, headers)`: every exception is caught
and surfaces as `none`, otherwise the decoded body is returned.  The
outcome is the world's oracle; headers do not affect it. -/
def fetch (w : World) (url : String) : Option String :=
  w.fetchResult url

/-- The row loop of `parse_top_news`: for each row, if the `titleline`
span with an anchor exists, read `title_span.find('a')['href']` — which
raises `KeyError` when the anchor has no `href` attribute — and append
`(news_id, full_url)`; a row whose span or anchor is missing is skipped
silently.  An exception abandons the rows already collected. -/
def parse_rows : List Row → Except PyErr (List (String × String))
  | [] => Except.ok []
  | row :: rest =>
    match row.title with
    | TitleAnchor.missing => parse_rows rest
    | TitleAnchor.noHref => Except.error PyErr.keyError
    | TitleAnchor.href full_url =>
      Except.map (fun links => (row.id, full_url) :: links) (parse_rows rest)

/-- Embedding of `parse_top_news(html)`: walk `rows[:TOP_N]` and collect
`(id, href)` for the rows that have a title anchor, raising `KeyError` at
the first sliced row whose title anchor lacks an `href` attribute. -/
def parse_top_news (doc : FrontDoc) : Except PyErr (List (String × String)) :=
  parse_rows (doc.rows.take TOP_N)

/-- The entry a single row contributes when no exception occurs: `some`
of `(id, href)` for a row with an href-carrying title anchor, `none` for
a row whose title anchor is missing. -/
def row_entry? (r : Row) : Option (String × String) :=
  match r.title with
  | TitleAnchor.href url => some (r.id, url)
  | _ => none

/-- Total projection of the href value of a title cell (used only to
state theorems about rows already known to carry an href). -/
def title_href_value : TitleAnchor → String
  | TitleAnchor.href url => url
  | _ => ""

/-- Embedding of `save_html(folder_path, filename, html)`: `os.makedirs` +
open + write, which either produces the file or lets the `OSError`
escape (the source has no error handling here). -/
def save_html (w : World) (folder_path filename html : String) :
    List Write × Option PyErr :=
  if w.saveOk folder_path filename then ([(folder_path, filename, html)], none)
  else ([], some PyErr.ioError)

/-- Embedding of `download_and_save(session, url, folder, filename)`:
fetch, and only when the body is truthy (not `None`, not empty) save it;
a falsy body is logged and dropped. -/
def download_and_save (w : World) (url folder filename : String) :
    List Write × Option PyErr :=
  match fetch w url with
  | none => ([], none)
  | some html => if html = "" then ([], none) else save_html w folder filename html

/-- The task list built by the `for i, link in enumerate(news_links)` loop
of `download_news_and_comments`: task `i` downloads `link` into
`comment_<i+1>.html`. -/
def fanout_tasks (w : World) (folder : String) : Nat → List String →
    List (List Write × Option PyErr)
  | _, [] => []
  | i, link :: rest =>
    download_and_save w link folder ("comment_" ++ toString (i + 1) ++ ".html")
      :: fanout_tasks w folder (i + 1) rest

/-- Write events produced by `asyncio.gather(*tasks)`: every task runs and
its writes happen. -/
def gather_writes : List (List Write × Option PyErr) → List Write
  | [] => []
  | t :: rest => t.1 ++ gather_writes rest

/-- Error produced by `asyncio.gather(*tasks)` (no `return_exceptions`):
the first task error, if any, propagates to the caller. -/
def gather_err : List (List Write × Option PyErr) → Option PyErr
  | [] => none
  | t :: rest =>
    match t.2 with
    | some e => some e
    | none => gather_err rest

/-- Embedding of `download_news_and_comments(session, news_id, news_url,
news_links)`: fetch the primary document; a falsy body aborts the entry
with nothing saved; otherwise save `news.html` (an escaping store error
propagates), and unless the link set is empty, gather the fan-out
downloads. -/
def download_news_and_comments (w : World) (news_id news_url : String)
    (news_links : List String) : List Write × Option PyErr :=
  let folder := NEWS_DIR ++ "/" ++ news_id
  match fetch w news_url with
  | none => ([], none)
  | some news_html =>
    if news_html = "" then ([], none)
    else
      match save_html w folder "news.html" news_html with
      | (ws, some e) => (ws, some e)
      | (ws, none) =>
        if news_links = [] then (ws, none)
        else
          let tasks := fanout_tasks w folder 0 news_links
          (ws ++ gather_writes tasks, gather_err tasks)

/-- Python `str.startswith(p)`: a character-level prefix test (spelled out
so that concrete instances evaluate in the kernel). -/
def startswith (s p : String) : Bool :=
  p.data.isPrefixOf s.data

/-- Python `set.add`: insert an element unless already present (the
resulting duplicate-free list is kept in first-insertion order). -/
def add_link (links : List String) (href : String) : List String :=
  if href ∈ links then links else links ++ [href]

/-- The anchor loop of `get_comments_links`: collect every `href` that
starts with `http://` or `https://` into the set. -/
def collect_links : List String → List String → List String
  | links, [] => links
  | links, href :: rest =>
    if startswith href "http://" || startswith href "https://"
    then collect_links (add_link links href) rest
    else collect_links links rest

/-- Link extraction over a parsed thread document (the
`ThreadLinkExtractor.extract` stage): scan all anchors, keep absolute
targets, de-duplicate. -/
def extract_comment_links (doc : ThreadDoc) : List String :=
  collect_links [] doc.hrefs

/-- Embedding of `get_comments_links(session, news_id)`.  Faithful to the
source's control flow: when the thread-page fetch returns `None`, the
function logs and then still evaluates `BeautifulSoup(page, ...)` with
`page = None`, which raises `TypeError`; a fetched body (even the empty
string) is parsed and its absolute links are collected. -/
def get_comments_links (w : World) (news_id : String) :
    Except PyErr (List String) :=
  match fetch w (BASE_URL ++ "item?id=" ++ news_id) with
  | none => Except.error PyErr.typeError
  | some page => Except.ok (extract_comment_links (w.parseThread page))

/-- Result of processing the `for nid, url in new_news` loop body of
`main`: the seen set as mutated so far, the accumulated write events, and
the first uncaught exception (which in the source aborts the loop and the
whole program). -/
structure ProcOut where
  seen : Finset String
  writes : List Write
  err : Option PyErr
  deriving DecidableEq

/-- Embedding of the entry-processing loop of `main`: for each new entry,
get the comment links, run the fan-out download, then add the id to the
seen set.  An uncaught exception stops the loop at once, leaving the seen
set as already mutated (`seen_news.add(nid)` runs only after the entry's
downloads finished without raising). -/
def processEntries (w : World) :
    List (String × String) → Finset String → List Write → ProcOut
  | [], seen, ws => ⟨seen, ws, none⟩
  | (nid, url) :: rest, seen, ws =>
    match get_comments_links w nid with
    | Except.error e => ⟨seen, ws, some e⟩
    | Except.ok news_links =>
      match download_news_and_comments w nid url news_links with
      | (dws, some e) => ⟨seen, ws ++ dws, some e⟩
      | (dws, none) => processEntries w rest (insert nid seen) (ws ++ dws)

/-- Observable outcome of one iteration of the `while True` loop of
`main`: final seen set, write events, the `new_news` worklist of the
cycle, and the first uncaught exception (if any — in the source it
terminates the program). -/
structure CycleOut where
  seen : Finset String
  writes : List Write
  newNews : List (String × String)
  err : Option PyErr
  deriving DecidableEq

/-- Embedding of one iteration of `main`'s `while True` loop: fetch the
front page (a falsy body skips the whole cycle), parse the top rows (an
uncaught `KeyError` from the parser ends the cycle, and in the source the
program), filter out already-seen ids into `new_news`, and process each
new entry in order. -/
def main_cycle (w : World) (seen_news : Finset String) : CycleOut :=
  match fetch w BASE_URL with
  | none => ⟨seen_news, [], [], none⟩
  | some main_page_html =>
    if main_page_html = "" then ⟨seen_news, [], [], none⟩
    else
      match parse_top_news (w.parseFront main_page_html) with
      | Except.error e => ⟨seen_news, [], [], some e⟩
      | Except.ok top_news =>
        let new_news := top_news.filter (fun p => decide (p.1 ∉ seen_news))
        let p := processEntries w new_news seen_news []
        ⟨p.seen, p.writes, new_news, p.err⟩

/-- A world identical to `w` except that fetching `url` yields `r`. -/
def overrideFetch (w : World) (url : String) (r : Option String) : World :=
  { w with fetchResult := fun u => if u = url then r else w.fetchResult u }

/-- The expected write events of a fan-out whose links all fetch
successfully, starting at 0-based task index `i`: task `i` saves the
fetched body of its link as `comment_<i+1>.html`. -/
def expected_fanout_writes (w : World) (folder : String) :
    Nat → List String → List Write
  | _, [] => []
  | i, link :: rest =>
    (folder, "comment_" ++ toString (i + 1) ++ ".html",
        (w.fetchResult link).getD "")
      :: expected_fanout_writes w folder (i + 1) rest

/-! ### Concrete worlds and documents used in counterexamples, witnesses
and claim evaluations -/

/-- A world in which every fetch fails (and all writes would succeed). -/
def failWorld : World :=
  { fetchResult := fun _ => none
    saveOk := fun _ _ => true
    parseFront := fun _ => ⟨[]⟩
    parseThread := fun _ => ⟨[]⟩ }

/-- A world whose front page lists one entry `"1"` but in which the
thread-page fetch (and every other non-front-page fetch) fails. -/
def threadFailWorld : World :=
  { fetchResult := fun u => if u = BASE_URL then some "<front>" else none
    saveOk := fun _ _ => true
    parseFront := fun _ => ⟨[⟨"1", TitleAnchor.href "http://example.com/a"⟩]⟩
    parseThread := fun _ => ⟨[]⟩ }

/-- A world in which every fetch returns a fixed non-empty body and all
writes succeed. -/
def okSaveWorld : World :=
  { fetchResult := fun _ => some "BODY"
    saveOk := fun _ _ => true
    parseFront := fun _ => ⟨[]⟩
    parseThread := fun _ => ⟨[]⟩ }

/-- A world for the fan-out scenario: the primary page and two of the
three links fetch successfully, one link fails. -/
def fanoutWorld : World :=
  { fetchResult := fun u =>
      if u = "http://p/" then some "NEWS"
      else if u = "http://l1/" then some "B1"
      else if u = "http://l3/" then some "B3"
      else none
    saveOk := fun _ _ => true
    parseFront := fun _ => ⟨[]⟩
    parseThread := fun _ => ⟨[]⟩ }

/-- A fully healthy world: one front-page entry `"1"`, its thread page has
no absolute links, every fetch involved succeeds, all writes succeed. -/
def goodWorld : World :=
  { fetchResult := fun u =>
      if u = BASE_URL then some "<front>"
      else if u = BASE_URL ++ "item?id=" ++ "1" then some "<thread>"
      else if u = "http://g/1" then some "G1"
      else none
    saveOk := fun _ _ => true
    parseFront := fun _ => ⟨[⟨"1", TitleAnchor.href "http://g/1"⟩]⟩
    parseThread := fun _ => ⟨[]⟩ }

/-- A world whose front page contains two rows carrying the same id `"7"`
(with different title links); everything fetches and saves fine. -/
def dupWorld : World :=
  { fetchResult := fun u =>
      if u = BASE_URL then some "<front>"
      else if u = BASE_URL ++ "item?id=" ++ "7" then some "<thread>"
      else if u = "http://d/a" then some "A"
      else if u = "http://d/b" then some "B"
      else none
    saveOk := fun _ _ => true
    parseFront := fun _ => ⟨[⟨"7", TitleAnchor.href "http://d/a"⟩,
        ⟨"7", TitleAnchor.href "http://d/b"⟩]⟩
    parseThread := fun _ => ⟨[]⟩ }

/-- A world in which everything fetches fine but every filesystem write
fails. -/
def storeFailWorld : World :=
  { fetchResult := fun u =>
      if u = BASE_URL then some "<front>"
      else if u = BASE_URL ++ "item?id=" ++ "1" then some "<thread>"
      else if u = "http://s/1" then some "S1"
      else none
    saveOk := fun _ _ => false
    parseFront := fun _ => ⟨[⟨"1", TitleAnchor.href "http://s/1"⟩]⟩
    parseThread := fun _ => ⟨[]⟩ }

/-- A front page whose first row has no resolvable title link, followed by
`TOP_N` valid rows: the document has `TOP_N` valid rows in total, yet the
parser (which slices before validating) returns fewer than `TOP_N`. -/
def lopsidedFront : FrontDoc :=
  ⟨[⟨"0", TitleAnchor.missing⟩,
    ⟨"1", TitleAnchor.href "http://x/1"⟩, ⟨"2", TitleAnchor.href "http://x/2"⟩,
    ⟨"3", TitleAnchor.href "http://x/3"⟩, ⟨"4", TitleAnchor.href "http://x/4"⟩,
    ⟨"5", TitleAnchor.href "http://x/5"⟩]⟩

/-- A front page of `TOP_N` rows, all with title links, whose first row has
an empty `id` attribute. -/
def emptyIdFront : FrontDoc :=
  ⟨[⟨"", TitleAnchor.href "http://y/1"⟩, ⟨"2", TitleAnchor.href "http://y/2"⟩,
    ⟨"3", TitleAnchor.href "http://y/3"⟩, ⟨"4", TitleAnchor.href "http://y/4"⟩,
    ⟨"5", TitleAnchor.href "http://y/5"⟩]⟩

/-- A front page of `TOP_N` rows, all valid with non-empty ids and hrefs. -/
def validFront5 : FrontDoc :=
  ⟨[⟨"1", TitleAnchor.href "http://z/1"⟩, ⟨"2", TitleAnchor.href "http://z/2"⟩,
    ⟨"3", TitleAnchor.href "http://z/3"⟩, ⟨"4", TitleAnchor.href "http://z/4"⟩,
    ⟨"5", TitleAnchor.href "http://z/5"⟩]⟩

/-- A front page whose second row has a title anchor without an `href`
attribute (markup like `<span class="titleline"><a>Title</a></span>`),
sitting among the first `TOP_N` rows, with further valid rows around it. -/
def noHrefFront : FrontDoc :=
  ⟨[⟨"1", TitleAnchor.href "http://n/1"⟩, ⟨"2", TitleAnchor.noHref⟩,
    ⟨"3", TitleAnchor.href "http://n/3"⟩, ⟨"4", TitleAnchor.href "http://n/4"⟩,
    ⟨"5", TitleAnchor.href "http://n/5"⟩, ⟨"6", TitleAnchor.href "http://n/6"⟩]⟩

/-- A world whose front page parses to `noHrefFront` (its second row's
title anchor lacks `href`); every fetch of other pages succeeds and all
writes succeed. -/
def noHrefWorld : World :=
  { fetchResult := fun u => if u = BASE_URL then some "<front>" else some "<page>"
    saveOk := fun _ _ => true
    parseFront := fun _ => noHrefFront
    parseThread := fun _ => ⟨[]⟩ }

/-! ### Claim theorems and supporting lemmas -/

/-- Claim C1: when the thread-page fetch fails, `get_comments_links` does
not return an empty set — the source falls through to
`BeautifulSoup(page, ...)` with `page = None`, which raises `TypeError`.
This theorem evaluates the embedded code at the failing input. -/
theorem c1_thread_fetch_failure_raises_typeerror :
    get_comments_links failWorld "2" = Except.error PyErr.typeError := rfl

/-- Claim C2: a single component failure does cross a component boundary
as an exception and terminates the crawl: with one new entry whose
thread-page fetch fails, the cycle ends with an uncaught `TypeError`
instead of continuing. -/
theorem c2_cycle_dies_on_thread_fetch_failure :
    (main_cycle threadFailWorld ∅).err = some PyErr.typeError := by decide

/-! ### Link extraction: helper lemmas -/

theorem mem_add_link {links : List String} {href u : String} :
    u ∈ add_link links href ↔ u ∈ links ∨ u = href := by
  by_cases h : href ∈ links <;> simp [add_link, h]
  rintro rfl
  exact h

theorem nodup_add_link {links : List String} (href : String)
    (h : links.Nodup) : (add_link links href).Nodup := by
  by_cases hm : href ∈ links <;> simp [add_link, hm]
  · exact h
  · simp [List.nodup_append, h, hm]

theorem mem_collect_links (l : List String) :
    ∀ (acc : List String) (u : String),
      u ∈ collect_links acc l ↔
        u ∈ acc ∨ (u ∈ l ∧
          (startswith u "http://" || startswith u "https://") = true) := by
  induction l with
  | nil => intro acc u; simp [collect_links]
  | cons href rest ih =>
    intro acc u
    by_cases h : (startswith href "http://" || startswith href "https://") = true
    · rw [show collect_links acc (href :: rest)
          = collect_links (add_link acc href) rest by simp [collect_links, h]]
      rw [ih, mem_add_link]
      constructor
      · rintro ((hu | rfl) | ⟨hr, habs⟩)
        · exact Or.inl hu
        · exact Or.inr ⟨List.mem_cons_self _ _, h⟩
        · exact Or.inr ⟨List.mem_cons_of_mem _ hr, habs⟩
      · rintro (hu | ⟨hmem, habs⟩)
        · exact Or.inl (Or.inl hu)
        · rcases List.mem_cons.mp hmem with rfl | hr
          · exact Or.inl (Or.inr rfl)
          · exact Or.inr ⟨hr, habs⟩
    · rw [show collect_links acc (href :: rest)
          = collect_links acc rest by simp [collect_links, h]]
      rw [ih]
      constructor
      · rintro (hu | ⟨hr, habs⟩)
        · exact Or.inl hu
        · exact Or.inr ⟨List.mem_cons_of_mem _ hr, habs⟩
      · rintro (hu | ⟨hmem, habs⟩)
        · exact Or.inl hu
        · rcases List.mem_cons.mp hmem with rfl | hr
          · exact absurd habs h
          · exact Or.inr ⟨hr, habs⟩

theorem nodup_collect_links (l : List String) :
    ∀ acc : List String, acc.Nodup → (collect_links acc l).Nodup := by
  induction l with
  | nil => intro acc h; simpa [collect_links] using h
  | cons href rest ih =>
    intro acc h
    by_cases hs : (startswith href "http://" || startswith href "https://") = true
    · rw [show collect_links acc (href :: rest)
          = collect_links (add_link acc href) rest by simp [collect_links, hs]]
      exact ih _ (nodup_add_link href h)
    · rw [show collect_links acc (href :: rest)
          = collect_links acc rest by simp [collect_links, hs]]
      exact ih _ h

/-- Claim C9: on every thread-page document, link extraction collects
exactly the distinct hyperlink targets starting with `http://` or
`https://` into a set; in particular the document with links
`[A, B, A, C]` (A duplicated) yields the set `{A, B, C}` of size 3. -/
theorem c9_extract_collects_distinct_absolute_links :
    (∀ (doc : ThreadDoc) (u : String),
        u ∈ extract_comment_links doc ↔
          u ∈ doc.hrefs ∧
            (startswith u "http://" || startswith u "https://") = true) ∧
    (∀ doc : ThreadDoc, (extract_comment_links doc).Nodup) ∧
    extract_comment_links
        ⟨["https://a.example/", "http://b.example/",
          "https://a.example/", "https://c.example/"]⟩
      = ["https://a.example/", "http://b.example/", "https://c.example/"] ∧
    (extract_comment_links
        ⟨["https://a.example/", "http://b.example/",
          "https://a.example/", "https://c.example/"]⟩).length = 3 := by
  refine ⟨?_, ?_, by decide, by decide⟩
  · intro doc u
    simpa [extract_comment_links] using mem_collect_links doc.hrefs [] u
  · intro doc
    exact nodup_collect_links doc.hrefs [] List.nodup_nil

/-! ### Front-page parsing: helper lemmas and claim theorems -/

theorem parse_rows_ok_of_no_noHref (rs : List Row)
    (h : ∀ r ∈ rs, r.title ≠ TitleAnchor.noHref) :
    parse_rows rs = Except.ok (rs.filterMap row_entry?) := by
  induction rs with
  | nil => rfl
  | cons r rest ih =>
    have hr := h r (List.mem_cons_self r rest)
    have hrest := ih (fun x hx => h x (List.mem_cons_of_mem _ hx))
    cases ht : r.title with
    | missing => simp [parse_rows, ht, row_entry?, hrest]
    | noHref => exact absurd ht hr
    | href url => simp [parse_rows, ht, row_entry?, hrest, Except.map]

theorem parse_rows_all_href (rs : List Row)
    (h : ∀ r ∈ rs,
      r.title ≠ TitleAnchor.missing ∧ r.title ≠ TitleAnchor.noHref) :
    parse_rows rs
      = Except.ok (rs.map (fun r => (r.id, title_href_value r.title))) := by
  induction rs with
  | nil => rfl
  | cons r rest ih =>
    obtain ⟨h1, h2⟩ := h r (List.mem_cons_self r rest)
    have hrest := ih (fun x hx => h x (List.mem_cons_of_mem _ hx))
    cases ht : r.title with
    | missing => exact absurd ht h1
    | noHref => exact absurd ht h2
    | href url => simp [parse_rows, ht, hrest, Except.map, title_href_value]

/-- Claim C8 is false as stated: on `noHrefFront`, whose second row has a
title anchor without an `href` attribute, the parser does not silently
skip the unresolvable row and return at most `TOP_N` entries — the
source's `title_span.find('a')['href']` raises `KeyError` (the guard only
checks that the span and anchor exist), and in `noHrefWorld` the
exception reaches the crawl loop and ends the cycle (in the source, the
program). -/
theorem c8_counterexample_nohref_anchor_raises :
    parse_top_news noHrefFront = Except.error PyErr.keyError ∧
    (main_cycle noHrefWorld ∅).err = some PyErr.keyError := by decide

/-- Claim C8, amended: for every front-page document in which each of the
first `TOP_N` rows' title anchors, when present, carries an `href`
attribute, the parser returns at most `TOP_N` entries: it takes the first
`TOP_N` row elements in document order and silently skips those lacking a
title anchor, so the result may be shorter than `TOP_N` even when more
valid rows exist in the document (a positional truncation, not a
first-N-valid guarantee).  A row among the first `TOP_N` whose title
anchor lacks `href` instead makes the parser raise `KeyError` (see the
counterexample). -/
theorem c8_amended_parse_is_positional_truncation (doc : FrontDoc)
    (hhref : ∀ r ∈ doc.rows.take TOP_N, r.title ≠ TitleAnchor.noHref) :
    parse_top_news doc
      = Except.ok ((doc.rows.take TOP_N).filterMap row_entry?) ∧
    ((doc.rows.take TOP_N).filterMap row_entry?).length ≤ TOP_N ∧
    ∃ doc' : FrontDoc,
      (∀ r ∈ doc'.rows, r.title ≠ TitleAnchor.noHref) ∧
      TOP_N ≤ doc'.rows.countP (fun r => (row_entry? r).isSome) ∧
      parse_top_news doc'
        = Except.ok ((doc'.rows.take TOP_N).filterMap row_entry?) ∧
      ((doc'.rows.take TOP_N).filterMap row_entry?).length < TOP_N := by
  refine ⟨parse_rows_ok_of_no_noHref _ hhref, ?_,
    lopsidedFront, by decide, by decide, by decide, by decide⟩
  exact le_trans (List.length_filterMap_le _ _) (List.length_take_le _ _)

/-- Witness for the amended C8: `lopsidedFront` (whose present anchors all
carry `href`) parses without an exception, to fewer than `TOP_N` entries
although the document holds `TOP_N` valid rows. -/
theorem c8_amended_witness :
    parse_top_news lopsidedFront
      = Except.ok ((lopsidedFront.rows.take TOP_N).filterMap row_entry?) ∧
    ((lopsidedFront.rows.take TOP_N).filterMap row_entry?).length ≤ TOP_N :=
  ⟨(c8_amended_parse_is_positional_truncation lopsidedFront (by decide)).1,
   (c8_amended_parse_is_positional_truncation lopsidedFront (by decide)).2.1⟩

/-- Claim C4 is false as stated: `lopsidedFront` has `TOP_N` rows with a
resolvable title link, yet the parser returns fewer than `TOP_N` entries
(the slice `rows[:TOP_N]` happens before validity filtering); and
`emptyIdFront` has `TOP_N` valid rows yet one returned entry has an empty
id. -/
theorem c4_counterexample_truncation_and_empty_id :
    (TOP_N ≤ lopsidedFront.rows.countP (fun r => (row_entry? r).isSome) ∧
      parse_top_news lopsidedFront
        = Except.ok [("1", "http://x/1"), ("2", "http://x/2"),
            ("3", "http://x/3"), ("4", "http://x/4")] ∧
      ([("1", "http://x/1"), ("2", "http://x/2"),
          ("3", "http://x/3"), ("4", "http://x/4")] :
        List (String × String)).length ≠ TOP_N) ∧
    (TOP_N ≤ emptyIdFront.rows.countP (fun r => (row_entry? r).isSome) ∧
      parse_top_news emptyIdFront
        = Except.ok [("", "http://y/1"), ("2", "http://y/2"),
            ("3", "http://y/3"), ("4", "http://y/4"), ("5", "http://y/5")] ∧
      ∃ e ∈ [(("" : String), ("http://y/1" : String)), ("2", "http://y/2"),
          ("3", "http://y/3"), ("4", "http://y/4"), ("5", "http://y/5")],
        ¬ e.1 ≠ "") := by decide

/-- Claim C4, amended: for every front-page document with at least `TOP_N`
rows whose first `TOP_N` rows all have a resolvable title link with a
non-empty target and a non-empty id attribute, `parse_top_news` returns
(without an exception) exactly `TOP_N` entries, in document order, each
with a non-empty id and a non-empty URL. -/
theorem c4_amended_first_topn_rows_valid (doc : FrontDoc)
    (hlen : TOP_N ≤ doc.rows.length)
    (hvalid : ∀ r ∈ doc.rows.take TOP_N,
      r.title ≠ TitleAnchor.missing ∧ r.title ≠ TitleAnchor.noHref ∧
        r.title ≠ TitleAnchor.href "" ∧ r.id ≠ "") :
    parse_top_news doc
      = Except.ok ((doc.rows.take TOP_N).map
          (fun r => (r.id, title_href_value r.title))) ∧
    ((doc.rows.take TOP_N).map
        (fun r => (r.id, title_href_value r.title))).length = TOP_N ∧
    ∀ e ∈ (doc.rows.take TOP_N).map
        (fun r => (r.id, title_href_value r.title)), e.1 ≠ "" ∧ e.2 ≠ "" := by
  refine ⟨parse_rows_all_href _
      (fun r hr => ⟨(hvalid r hr).1, (hvalid r hr).2.1⟩), ?_, ?_⟩
  · rw [List.length_map, List.length_take]
    exact min_eq_left hlen
  · intro e he
    rcases List.mem_map.mp he with ⟨r, hr, rfl⟩
    rcases hvalid r hr with ⟨h1, h2, h3, h4⟩
    refine ⟨h4, ?_⟩
    show title_href_value r.title ≠ ""
    cases ht : r.title with
    | missing => exact absurd ht h1
    | noHref => exact absurd ht h2
    | href url =>
      simp only [title_href_value]
      intro hc
      exact h3 (ht.trans (by rw [hc]))

/-- Witness for the amended C4 at a concrete all-valid front page. -/
theorem c4_amended_witness :
    parse_top_news validFront5
      = Except.ok ((validFront5.rows.take TOP_N).map
          (fun r => (r.id, title_href_value r.title))) ∧
    ((validFront5.rows.take TOP_N).map
        (fun r => (r.id, title_href_value r.title))).length = TOP_N :=
  ⟨(c4_amended_first_topn_rows_valid validFront5 (by decide) (by decide)).1,
   (c4_amended_first_topn_rows_valid validFront5 (by decide) (by decide)).2.1⟩


/-! ### Fan-out download: helper lemmas and claim theorems -/

theorem fanout_tasks_append (w : World) (folder : String)
    (l1 l2 : List String) : ∀ i : Nat,
    fanout_tasks w folder i (l1 ++ l2)
      = fanout_tasks w folder i l1 ++ fanout_tasks w folder (i + l1.length) l2 := by
  induction l1 with
  | nil => intro i; simp [fanout_tasks]
  | cons link rest ih =>
    intro i
    simp only [List.cons_append, fanout_tasks, List.length_cons]
    rw [show i + (rest.length + 1) = (i + 1) + rest.length by omega]
    exact congrArg _ (ih (i + 1))

theorem gather_writes_append (t1 t2 : List (List Write × Option PyErr)) :
    gather_writes (t1 ++ t2) = gather_writes t1 ++ gather_writes t2 := by
  induction t1 with
  | nil => simp [gather_writes]
  | cons t rest ih => simp [gather_writes, ih]

theorem gather_err_append_of_none (t1 t2 : List (List Write × Option PyErr))
    (h : gather_err t1 = none) :
    gather_err (t1 ++ t2) = gather_err t2 := by
  induction t1 with
  | nil => simp
  | cons t rest ih =>
    cases ht : t.2 with
    | some e => simp [gather_err, ht] at h
    | none =>
      rw [gather_err, ht] at h
      simpa [gather_err, ht] using ih h

theorem fanout_all_ok (w : World) (folder : String)
    (hsave : ∀ fn, w.saveOk folder fn = true) :
    ∀ (i : Nat) (ls : List String),
      (∀ l ∈ ls, w.fetchResult l ≠ none ∧ w.fetchResult l ≠ some "") →
      gather_writes (fanout_tasks w folder i ls)
          = expected_fanout_writes w folder i ls ∧
        gather_err (fanout_tasks w folder i ls) = none := by
  intro i ls
  induction ls generalizing i with
  | nil => intro _; simp [fanout_tasks, gather_writes, gather_err,
      expected_fanout_writes]
  | cons link rest ih =>
    intro h
    obtain ⟨h1, h2⟩ := h link (List.mem_cons_self link rest)
    have hrest := fun l hl => h l (List.mem_cons_of_mem _ hl)
    cases hb : w.fetchResult link with
    | none => exact absurd hb h1
    | some b =>
      have hbne : ¬ b = "" := by
        intro hc; exact h2 (by rw [hb, hc])
      obtain ⟨ihw, ihe⟩ := ih (i + 1) hrest
      constructor
      · simp [fanout_tasks, gather_writes, download_and_save, fetch, hb, hbne,
          save_html, hsave, expected_fanout_writes, ihw]
      · simp [fanout_tasks, gather_err, download_and_save, fetch, hb, hbne,
          save_html, hsave, ihe]

/-- Claim C6: when the fetch of the primary URL fails, processing of the
entry is aborted with no documents saved at all; when the primary fetch
succeeds (with a non-empty body) and its write goes through, `news.html`
is saved under the entry's folder for every link set, including the empty
one. -/
theorem c6_primary_document_gate (w : World) (nid url : String)
    (links : List String) :
    (fetch w url = none →
      download_news_and_comments w nid url links = ([], none)) ∧
    (∀ s : String, fetch w url = some s → s ≠ "" →
      w.saveOk (NEWS_DIR ++ "/" ++ nid) "news.html" = true →
      (NEWS_DIR ++ "/" ++ nid, "news.html", s)
        ∈ (download_news_and_comments w nid url links).1) := by
  constructor
  · intro h
    simp [download_news_and_comments, h]
  · intro s hs hne hsave
    by_cases hl : links = [] <;>
      simp [download_news_and_comments, hs, hne, save_html, hsave, hl]

/-- Witness for C6: a failing primary fetch saves nothing; a succeeding
one writes `news.html` even with an empty link set. -/
theorem c6_witness :
    download_news_and_comments failWorld "1" "http://u/" [] = ([], none) ∧
    (NEWS_DIR ++ "/" ++ "1", "news.html", "BODY")
      ∈ (download_news_and_comments okSaveWorld "1" "http://u/" []).1 :=
  ⟨(c6_primary_document_gate failWorld "1" "http://u/" []).1 rfl,
   (c6_primary_document_gate okSaveWorld "1" "http://u/" []).2 "BODY" rfl
      (by decide) rfl⟩

/-- Claim C7: with fan-out links `l1 ++ bad :: l2` where only `bad`'s
fetch fails, the entry's processing completes without an exception, every
other link is saved as `comment_<k>.html` with `k` its 1-based position in
the set's iteration order, and the failed link contributes no write
event. -/
theorem c7_one_failed_link_spares_siblings (w : World)
    (nid url bad : String) (l1 l2 : List String) (s : String)
    (hs : fetch w url = some s) (hne : s ≠ "")
    (hbad : w.fetchResult bad = none)
    (hok : ∀ l ∈ l1 ++ l2, w.fetchResult l ≠ none ∧ w.fetchResult l ≠ some "")
    (hsave : ∀ fn, w.saveOk (NEWS_DIR ++ "/" ++ nid) fn = true) :
    download_news_and_comments w nid url (l1 ++ bad :: l2)
      = ((NEWS_DIR ++ "/" ++ nid, "news.html", s)
            :: (expected_fanout_writes w (NEWS_DIR ++ "/" ++ nid) 0 l1
              ++ expected_fanout_writes w (NEWS_DIR ++ "/" ++ nid)
                  (l1.length + 1) l2),
          none) := by
  have hok1 : ∀ l ∈ l1, w.fetchResult l ≠ none ∧ w.fetchResult l ≠ some "" :=
    fun l hl => hok l (List.mem_append_left _ hl)
  have hok2 : ∀ l ∈ l2, w.fetchResult l ≠ none ∧ w.fetchResult l ≠ some "" :=
    fun l hl => hok l (List.mem_append_right _ hl)
  obtain ⟨hw1, he1⟩ := fanout_all_ok w (NEWS_DIR ++ "/" ++ nid) hsave 0 l1 hok1
  obtain ⟨hw2, he2⟩ :=
    fanout_all_ok w (NEWS_DIR ++ "/" ++ nid) hsave (l1.length + 1) l2 hok2
  have hnil : ¬ l1 ++ bad :: l2 = [] := by simp
  have htasks : fanout_tasks w (NEWS_DIR ++ "/" ++ nid) 0 (l1 ++ bad :: l2)
      = fanout_tasks w (NEWS_DIR ++ "/" ++ nid) 0 l1
        ++ (([], none)
          :: fanout_tasks w (NEWS_DIR ++ "/" ++ nid) (l1.length + 1) l2) := by
    rw [fanout_tasks_append]
    simp [fanout_tasks, download_and_save, fetch, hbad]
  simp only [download_news_and_comments, hs, hne, if_neg, save_html,
    hsave "news.html", if_true, hnil, htasks, gather_writes_append,
    gather_writes, hw1, hw2]
  rw [gather_err_append_of_none _ _ he1]
  simp [gather_err, hw2, he2]

/-- Witness for C7 at a concrete three-link fan-out whose middle link
fails. -/
theorem c7_witness :
    download_news_and_comments fanoutWorld "9" "http://p/"
        (["http://l1/"] ++ "http://bad/" :: ["http://l3/"])
      = ((NEWS_DIR ++ "/" ++ "9", "news.html", "NEWS")
            :: (expected_fanout_writes fanoutWorld (NEWS_DIR ++ "/" ++ "9")
                  0 ["http://l1/"]
              ++ expected_fanout_writes fanoutWorld (NEWS_DIR ++ "/" ++ "9")
                  (["http://l1/"].length + 1) ["http://l3/"]),
          none) :=
  c7_one_failed_link_spares_siblings fanoutWorld "9" "http://p/"
    "http://bad/" ["http://l1/"] ["http://l3/"] "NEWS" rfl (by decide)
    (by decide) (by decide) (fun _ => rfl)

/-! ### Crawl loop: helper lemmas and claim theorems -/

theorem processEntries_seen_of_ok (w : World) :
    ∀ (entries : List (String × String)) (seen : Finset String)
      (ws : List Write),
      (processEntries w entries seen ws).err = none →
      (processEntries w entries seen ws).seen
        = seen ∪ (entries.map Prod.fst).toFinset := by
  intro entries
  induction entries with
  | nil => intro seen ws _; simp [processEntries]
  | cons p rest ih =>
    intro seen ws h
    obtain ⟨nid, url⟩ := p
    cases heq : get_comments_links w nid with
    | error e => simp [processEntries, heq] at h
    | ok news_links =>
      rcases hd : download_news_and_comments w nid url news_links
        with ⟨dws, derr⟩
      cases derr with
      | some e => simp [processEntries, heq, hd] at h
      | none =>
        have h2 : (processEntries w rest (insert nid seen) (ws ++ dws)).err
            = none := by
          simpa [processEntries, heq, hd] using h
        have hrec := ih (insert nid seen) (ws ++ dws) h2
        simp only [processEntries, heq, hd]
        rw [hrec]
        ext x
        simp [List.toFinset_cons]

theorem not_mem_newNews_of_seen (w : World) (seen : Finset String)
    (nid : String) (h : nid ∈ seen) :
    nid ∉ (main_cycle w seen).newNews.map Prod.fst := by
  cases hf : fetch w BASE_URL with
  | none => simp [main_cycle, hf]
  | some s =>
    by_cases hε : s = ""
    · simp [main_cycle, hf, hε]
    · cases hp : parse_top_news (w.parseFront s) with
      | error e => simp [main_cycle, hf, hε, hp]
      | ok top_news =>
        simp only [main_cycle, hf, hε, if_neg, hp]
        intro hmem
        rcases List.mem_map.mp hmem with ⟨p, hp2, rfl⟩
        have hfil := (List.mem_filter.mp hp2).2
        simp at hfil
        exact hfil h

/-- Claim C3, amended: in an exception-free cycle, the seen set after the
cycle is exactly the seen set before plus the ids of the cycle's
`new_entries` — every selected entry is marked seen once its download
attempt ran, even when the download totally failed — and an id processed
in one cycle never reappears in the following cycle's `new_entries`.
(Within a single cycle, however, duplicate parsed ids are each processed:
the counterexample shows the claim's "never processed twice" is false.) -/
theorem c3_amended_seen_accounting (w0 w1 : World) (seen : Finset String)
    (nid : String) (h0 : (main_cycle w0 seen).err = none) :
    (main_cycle w0 seen).seen
      = seen ∪ ((main_cycle w0 seen).newNews.map Prod.fst).toFinset ∧
    (nid ∈ (main_cycle w0 seen).newNews.map Prod.fst →
      nid ∉ (main_cycle w1 (main_cycle w0 seen).seen).newNews.map Prod.fst) := by
  have hmain : (main_cycle w0 seen).seen
      = seen ∪ ((main_cycle w0 seen).newNews.map Prod.fst).toFinset := by
    cases hf : fetch w0 BASE_URL with
    | none => simp [main_cycle, hf]
    | some s =>
      by_cases hε : s = ""
      · simp [main_cycle, hf, hε]
      · cases hp : parse_top_news (w0.parseFront s) with
        | error e => simp [main_cycle, hf, hε, hp]
        | ok top_news =>
          have h0' := h0
          simp only [main_cycle, hf, hε, if_neg, hp] at h0' ⊢
          exact processEntries_seen_of_ok w0 _ seen [] h0'
  refine ⟨hmain, fun hmem => ?_⟩
  apply not_mem_newNews_of_seen
  rw [hmain]
  exact Finset.mem_union_right _ (List.mem_toFinset.mpr hmem)

/-- Witness for the amended C3 on a healthy world: after an exception-free
cycle the processed id is in the seen set and absent from the next cycle's
`new_entries`. -/
theorem c3_amended_witness :
    (main_cycle goodWorld ∅).seen
      = ∅ ∪ ((main_cycle goodWorld ∅).newNews.map Prod.fst).toFinset ∧
    "1" ∉ (main_cycle goodWorld (main_cycle goodWorld ∅).seen).newNews.map
        Prod.fst :=
  ⟨(c3_amended_seen_accounting goodWorld goodWorld ∅ "1" (by decide)).1,
   (c3_amended_seen_accounting goodWorld goodWorld ∅ "1" (by decide)).2
      (by decide)⟩

/-- Claim C3 is false as stated: with two front-page rows carrying the
same id `"7"`, `new_entries` (computed once, before processing) contains
the id twice and the cycle initiates the full download of entry `"7"`
twice in the same run — two `news.html` writes under `data/7`. -/
theorem c3_counterexample_duplicate_id_processed_twice :
    (main_cycle dupWorld ∅).newNews.map Prod.fst = ["7", "7"] ∧
    (main_cycle dupWorld ∅).writes
      = [(NEWS_DIR ++ "/" ++ "7", "news.html", "A"),
         (NEWS_DIR ++ "/" ++ "7", "news.html", "B")] ∧
    (main_cycle dupWorld ∅).err = none := by decide

/-- Claim C5, amended: a filesystem write failure while saving a document
is not recovered anywhere — `save_html` has no error handling, so the
error propagates out of the entry's processing and aborts the crawl
cycle (terminating the loop) instead of being logged locally. -/
theorem c5_amended_store_failure_propagates (w : World) (nid url : String)
    (links : List String) (s : String)
    (hs : fetch w url = some s) (hne : s ≠ "")
    (hsave : w.saveOk (NEWS_DIR ++ "/" ++ nid) "news.html" = false) :
    download_news_and_comments w nid url links = ([], some PyErr.ioError) ∧
    (∀ (w' : World) (seen : Finset String) (nid' url' fh th : String),
      fetch w' BASE_URL = some fh → fh ≠ "" →
      parse_top_news (w'.parseFront fh) = Except.ok [(nid', url')] →
      nid' ∉ seen →
      fetch w' (BASE_URL ++ "item?id=" ++ nid') = some th →
      (download_news_and_comments w' nid' url'
          (extract_comment_links (w'.parseThread th))).2
        = some PyErr.ioError →
      (main_cycle w' seen).err = some PyErr.ioError) := by
  constructor
  · simp [download_news_and_comments, hs, hne, save_html, hsave]
  · intro w' seen nid' url' fh th hfh hfhne hparse hnot hth herr
    rcases hd : download_news_and_comments w' nid' url'
        (extract_comment_links (w'.parseThread th)) with ⟨dws, derr⟩
    rw [hd] at herr
    simp only at herr
    subst herr
    simp [main_cycle, hfh, hfhne, hparse, hnot, processEntries,
      get_comments_links, hth, hd]

/-- Witness for the amended C5: in `storeFailWorld` the failed write of
`news.html` surfaces as an uncaught error of the entry's download and of
the whole cycle. -/
theorem c5_amended_witness :
    download_news_and_comments storeFailWorld "1" "http://s/1" []
        = ([], some PyErr.ioError) ∧
    (main_cycle storeFailWorld ∅).err = some PyErr.ioError :=
  ⟨(c5_amended_store_failure_propagates storeFailWorld "1" "http://s/1" []
      "S1" (by decide) (by decide) rfl).1,
   (c5_amended_store_failure_propagates storeFailWorld "1" "http://s/1" []
      "S1" (by decide) (by decide) rfl).2 storeFailWorld ∅ "1" "http://s/1"
      "<front>" "<thread>" (by decide) (by decide) (by decide) (by decide)
      (by decide) (by decide)⟩

/-- Claim C5 is false as stated: a single failing filesystem write does
abort the crawl loop — the cycle in `storeFailWorld` ends with an uncaught
`OSError` instead of logging it and continuing. -/
theorem c5_counterexample_store_failure_kills_loop :
    (main_cycle storeFailWorld ∅).err = some PyErr.ioError := by decide

/-- Claim C10: a fetch that succeeds with an empty decoded body is treated
exactly like a fetch failure, at each of the three consuming sites: the
crawl cycle on the front page, the primary document in the fan-out
downloader, and a single fan-out link. -/
theorem c10_empty_body_equals_fetch_failure (w : World) (seen : Finset String)
    (nid url folder filename : String) (links : List String) :
    main_cycle (overrideFetch w BASE_URL (some "")) seen
      = main_cycle (overrideFetch w BASE_URL none) seen ∧
    download_news_and_comments (overrideFetch w url (some "")) nid url links
      = download_news_and_comments (overrideFetch w url none) nid url links ∧
    download_and_save (overrideFetch w url (some "")) url folder filename
      = download_and_save (overrideFetch w url none) url folder filename := by
  refine ⟨?_, ?_, ?_⟩
  · simp [main_cycle, fetch, overrideFetch]
  · simp [download_news_and_comments, fetch, overrideFetch]
  · simp [download_and_save, fetch, overrideFetch]
